import Mathlib

/-
Verification of the linear-algebra kernel of the game-engine repository
(src/game-engine/src/mathematics.rs, module `linalg`).

Embedding conventions:
* `f32` scalars are embedded as `ℚ` (exact arithmetic; the idealized
  semantics of the floating-point formulas).  Trigonometric operations,
  which have no exact rational form, live in a separate `ℝ`-valued
  section near the end of the definitions.
* Rust `MatrixN { e: [[f32; N]; N] }` is embedded as a structure with one
  field per array slot: field `eIJ` is `self.e[I][J]`.
* Imperative loops over constant bounds are unrolled (the source loops
  run over literal ranges `0..N`), and in-place mutations are sequential
  functional record updates in source order.
-/

namespace Linalg

/-- Scalar constant `SQRT2OVER2 = 0.7071067811865` from `num::constants`. -/
def SQRT2OVER2 : ℚ := 0.7071067811865

/-- Machine epsilon `f32::EPSILON = 2⁻²³`, used by `angle_safe`. -/
def EPSILON : ℚ := 1 / 2 ^ 23

/-- Embeds `f32::signum` for non-NaN arguments: `1.0` for `x ≥ 0`,
`-1.0` for `x < 0` (the cofactor code only applies it to `±0.25`). -/
def signum (x : ℚ) : ℚ := if x < 0 then -1 else 1

/-- Rust struct `Vector2 { x: f32, y: f32 }`. -/
structure Vector2 where
  x : ℚ
  y : ℚ
deriving DecidableEq

/-- Rust struct `Complex { r: f32, i: f32 }` (intended law `i² = -1`). -/
structure Complex where
  r : ℚ
  i : ℚ
deriving DecidableEq

/-- Rust struct `Vector3 { x: f32, y: f32, z: f32 }`. -/
structure Vector3 where
  x : ℚ
  y : ℚ
  z : ℚ
deriving DecidableEq

/-- Rust struct `Vector4 { x, y, z, w : f32 }`. -/
structure Vector4 where
  x : ℚ
  y : ℚ
  z : ℚ
  w : ℚ
deriving DecidableEq

/-- Rust struct `Matrix2 { e: [[f32; 2]; 2] }`; field `eIJ` is `e[I][J]`. -/
structure Matrix2 where
  e00 : ℚ
  e01 : ℚ
  e10 : ℚ
  e11 : ℚ
deriving DecidableEq

/-- Rust struct `Matrix3 { e: [[f32; 3]; 3] }`; field `eIJ` is `e[I][J]`. -/
structure Matrix3 where
  e00 : ℚ
  e01 : ℚ
  e02 : ℚ
  e10 : ℚ
  e11 : ℚ
  e12 : ℚ
  e20 : ℚ
  e21 : ℚ
  e22 : ℚ
deriving DecidableEq

/-- Rust struct `Matrix4 { e: [[f32; 4]; 4] }`; field `eIJ` is `e[I][J]`. -/
structure Matrix4 where
  e00 : ℚ
  e01 : ℚ
  e02 : ℚ
  e03 : ℚ
  e10 : ℚ
  e11 : ℚ
  e12 : ℚ
  e13 : ℚ
  e20 : ℚ
  e21 : ℚ
  e22 : ℚ
  e23 : ℚ
  e30 : ℚ
  e31 : ℚ
  e32 : ℚ
  e33 : ℚ
deriving DecidableEq

/-- Dynamic array access `self.e[i][j]` on `Matrix2` (out-of-range reads
panic in Rust; modelled as `0`, never reached by the in-scope callers). -/
def Matrix2.el (m : Matrix2) (i j : Nat) : ℚ :=
  if i = 0 then (if j = 0 then m.e00 else if j = 1 then m.e01 else 0)
  else if i = 1 then (if j = 0 then m.e10 else if j = 1 then m.e11 else 0)
  else 0

/-- Dynamic array access `self.e[i][j]` on `Matrix3`. -/
def Matrix3.el (m : Matrix3) (i j : Nat) : ℚ :=
  if i = 0 then (if j = 0 then m.e00 else if j = 1 then m.e01 else if j = 2 then m.e02 else 0)
  else if i = 1 then (if j = 0 then m.e10 else if j = 1 then m.e11 else if j = 2 then m.e12 else 0)
  else if i = 2 then (if j = 0 then m.e20 else if j = 1 then m.e21 else if j = 2 then m.e22 else 0)
  else 0

/-- Dynamic array access `self.e[i][j]` on `Matrix4`. -/
def Matrix4.el (m : Matrix4) (i j : Nat) : ℚ :=
  if i = 0 then (if j = 0 then m.e00 else if j = 1 then m.e01 else if j = 2 then m.e02 else if j = 3 then m.e03 else 0)
  else if i = 1 then (if j = 0 then m.e10 else if j = 1 then m.e11 else if j = 2 then m.e12 else if j = 3 then m.e13 else 0)
  else if i = 2 then (if j = 0 then m.e20 else if j = 1 then m.e21 else if j = 2 then m.e22 else if j = 3 then m.e23 else 0)
  else if i = 3 then (if j = 0 then m.e30 else if j = 1 then m.e31 else if j = 2 then m.e32 else if j = 3 then m.e33 else 0)
  else 0

/-- `Vector2::new(a, b)`. -/
def Vector2.new (a b : ℚ) : Vector2 := { x := a, y := b }

/-- `Complex::new(a, b)`. -/
def Complex.new (a b : ℚ) : Complex := { r := a, i := b }

/-- `Vector3::new(a, b, c)`. -/
def Vector3.new (a b c : ℚ) : Vector3 := { x := a, y := b, z := c }

/-- `Vector4::new(a, b, c, d)`. -/
def Vector4.new (a b c d : ℚ) : Vector4 := { x := a, y := b, z := c, w := d }

/-- `Matrix2::new(a, b, c, d)` stores `e = [[a, c], [b, d]]`. -/
def Matrix2.new (a b c d : ℚ) : Matrix2 :=
  { e00 := a, e01 := c, e10 := b, e11 := d }

/-- `Matrix2::from_vector2(a, b) = Matrix2::new(a.x, a.y, b.x, b.y)`. -/
def Matrix2.from_vector2 (a b : Vector2) : Matrix2 :=
  Matrix2.new a.x a.y b.x b.y

/-- `Matrix3::new(a..i)` stores `e = [[a, d, g], [b, e, h], [c, f, i]]`. -/
def Matrix3.new (a b c d e f g h i : ℚ) : Matrix3 :=
  { e00 := a, e01 := d, e02 := g,
    e10 := b, e11 := e, e12 := h,
    e20 := c, e21 := f, e22 := i }

/-- `Matrix3::from_vector3(a, b, c)`. -/
def Matrix3.from_vector3 (a b c : Vector3) : Matrix3 :=
  Matrix3.new a.x a.y a.z b.x b.y b.z c.x c.y c.z

/-- `Matrix4::new(a..p)` stores
`e = [[a, e, i, m], [b, f, j, n], [c, g, k, o], [d, h, l, p]]`. -/
def Matrix4.new (a b c d e f g h i j k l m n o p : ℚ) : Matrix4 :=
  { e00 := a, e01 := e, e02 := i, e03 := m,
    e10 := b, e11 := f, e12 := j, e13 := n,
    e20 := c, e21 := g, e22 := k, e23 := o,
    e30 := d, e31 := h, e32 := l, e33 := p }

/-- `Matrix4::from_vector4(a, b, c, d)`. -/
def Matrix4.from_vector4 (a b c d : Vector4) : Matrix4 :=
  Matrix4.new a.x a.y a.z a.w b.x b.y b.z b.w c.x c.y c.z c.w d.x d.y d.z d.w

/-- `Matrix2::row(n) = Vector2::new(e[n][0], e[n][1])`. -/
def Matrix2.row (m : Matrix2) (n : Nat) : Vector2 :=
  Vector2.new (m.el n 0) (m.el n 1)

/-- `Matrix2::column(n) = Vector2::new(e[0][n], e[1][n])`. -/
def Matrix2.column (m : Matrix2) (n : Nat) : Vector2 :=
  Vector2.new (m.el 0 n) (m.el 1 n)

/-- `Matrix2::diagonal() = Vector2::new(e[0][0], e[1][1])`. -/
def Matrix2.diagonal (m : Matrix2) : Vector2 :=
  Vector2.new m.e00 m.e11

/-- `Matrix3::row(n)`. -/
def Matrix3.row (m : Matrix3) (n : Nat) : Vector3 :=
  Vector3.new (m.el n 0) (m.el n 1) (m.el n 2)

/-- `Matrix3::column(n)`. -/
def Matrix3.column (m : Matrix3) (n : Nat) : Vector3 :=
  Vector3.new (m.el 0 n) (m.el 1 n) (m.el 2 n)

/-- `Matrix3::diagonal()`. -/
def Matrix3.diagonal (m : Matrix3) : Vector3 :=
  Vector3.new m.e00 m.e11 m.e22

/-- `Matrix4::row(n)`. -/
def Matrix4.row (m : Matrix4) (n : Nat) : Vector4 :=
  Vector4.new (m.el n 0) (m.el n 1) (m.el n 2) (m.el n 3)

/-- `Matrix4::column(n)`. -/
def Matrix4.column (m : Matrix4) (n : Nat) : Vector4 :=
  Vector4.new (m.el 0 n) (m.el 1 n) (m.el 2 n) (m.el 3 n)

/-- `Matrix4::diagonal()`. -/
def Matrix4.diagonal (m : Matrix4) : Vector4 :=
  Vector4.new m.e00 m.e11 m.e22 m.e33

/-- `Sub<Vector2> for Vector2`. -/
def Vector2.sub (a v : Vector2) : Vector2 :=
  Vector2.new (a.x - v.x) (a.y - v.y)

/-- `Sub<Vector3> for Vector3`. -/
def Vector3.sub (a v : Vector3) : Vector3 :=
  Vector3.new (a.x - v.x) (a.y - v.y) (a.z - v.z)

/-- `Sub<Vector4> for Vector4`. -/
def Vector4.sub (a v : Vector4) : Vector4 :=
  Vector4.new (a.x - v.x) (a.y - v.y) (a.z - v.z) (a.w - v.w)

/-- `Mul<f32> for Vector2` (vector times scalar). -/
def Vector2.mulScalar (v : Vector2) (s : ℚ) : Vector2 :=
  Vector2.new (v.x * s) (v.y * s)

/-- `Mul<Vector2> for f32` (scalar times vector). -/
def Vector2.scalarMul (s : ℚ) (v : Vector2) : Vector2 :=
  Vector2.new (v.x * s) (v.y * s)

/-- `Mul<f32> for Vector3`. -/
def Vector3.mulScalar (v : Vector3) (s : ℚ) : Vector3 :=
  Vector3.new (v.x * s) (v.y * s) (v.z * s)

/-- `Mul<Vector3> for f32`. -/
def Vector3.scalarMul (s : ℚ) (v : Vector3) : Vector3 :=
  Vector3.new (v.x * s) (v.y * s) (v.z * s)

/-- `Mul<f32> for Vector4`. -/
def Vector4.mulScalar (v : Vector4) (s : ℚ) : Vector4 :=
  Vector4.new (v.x * s) (v.y * s) (v.z * s) (v.w * s)

/-- `Mul<Vector2> for Vector2`: the dot product `a.x*b.x + a.y*b.y`. -/
def Vector2.dot (a v : Vector2) : ℚ :=
  a.x * v.x + a.y * v.y

/-- `Mul<Vector3> for Vector3`: the dot product. -/
def Vector3.dot (a v : Vector3) : ℚ :=
  a.x * v.x + a.y * v.y + a.z * v.z

/-- `Mul<Vector4> for Vector4`: the dot product. -/
def Vector4.dot (a v : Vector4) : ℚ :=
  a.x * v.x + a.y * v.y + a.z * v.z + a.w * v.w

/-- `Div<Vector2> for Vector2`: the repurposed 2D cross product
`self.x * v.y - self.y * v.x`. -/
def Vector2.cross (a v : Vector2) : ℚ :=
  a.x * v.y - a.y * v.x

/-- `Mul<Complex> for Complex`, exactly as written in the source:
`Self::new(self.r * self.i - c.r * c.i, self.r * c.i + c.r * self.i)`. -/
def Complex.mul (a c : Complex) : Complex :=
  Complex.new (a.r * a.i - c.r * c.i) (a.r * c.i + c.r * a.i)

/-- `Vector2::Q1() = (1, 1)`. -/
def Vector2.Q1 : Vector2 := Vector2.new 1 1

/-- `Vector2::Q1n() = (SQRT2OVER2, SQRT2OVER2)`. -/
def Vector2.Q1n : Vector2 := Vector2.new SQRT2OVER2 SQRT2OVER2

/-- `Vector2::Q2() = (-1, 1)`. -/
def Vector2.Q2 : Vector2 := Vector2.new (-1) 1

/-- `Vector2::Q2n() = (-SQRT2OVER2, SQRT2OVER2)`. -/
def Vector2.Q2n : Vector2 := Vector2.new (-SQRT2OVER2) SQRT2OVER2

/-- `Vector2::Q3() = (-1, -1)`. -/
def Vector2.Q3 : Vector2 := Vector2.new (-1) (-1)

/-- `Vector2::Q3n() = (-SQRT2OVER2, -SQRT2OVER2)`. -/
def Vector2.Q3n : Vector2 := Vector2.new (-SQRT2OVER2) (-SQRT2OVER2)

/-- `Vector2::Q4()`, exactly as written in the source: `Self::new(1.0, 1.0)`. -/
def Vector2.Q4 : Vector2 := Vector2.new 1 1

/-- `Vector2::Q4n()`, exactly as written: `Self::new(SQRT2OVER2, SQRT2OVER2)`. -/
def Vector2.Q4n : Vector2 := Vector2.new SQRT2OVER2 SQRT2OVER2

/-- `Matrix2::zero()`. -/
def Matrix2.zero : Matrix2 := Matrix2.new 0 0 0 0

/-- `Matrix3::zero()`. -/
def Matrix3.zero : Matrix3 := Matrix3.new 0 0 0 0 0 0 0 0 0

/-- `Matrix4::zero()`. -/
def Matrix4.zero : Matrix4 := Matrix4.new 0 0 0 0 0 0 0 0 0 0 0 0 0 0 0 0

/-- `Matrix2::identity()`. -/
def Matrix2.identity : Matrix2 := Matrix2.new 1 0 0 1

/-- `Matrix3::identity()`. -/
def Matrix3.identity : Matrix3 := Matrix3.new 1 0 0 0 1 0 0 0 1

/-- `Matrix4::identity()`. -/
def Matrix4.identity : Matrix4 :=
  Matrix4.new 1 0 0 0 0 1 0 0 0 0 1 0 0 0 0 1

/-- `Matrix2::transpose() = Matrix2::new(e[0][0], e[0][1], e[1][0], e[1][1])`. -/
def Matrix2.transpose (m : Matrix2) : Matrix2 :=
  Matrix2.new m.e00 m.e01 m.e10 m.e11

/-- `Matrix3::transpose()`. -/
def Matrix3.transpose (m : Matrix3) : Matrix3 :=
  Matrix3.new m.e00 m.e01 m.e02 m.e10 m.e11 m.e12 m.e20 m.e21 m.e22

/-- `Matrix4::transpose()`. -/
def Matrix4.transpose (m : Matrix4) : Matrix4 :=
  Matrix4.new m.e00 m.e01 m.e02 m.e03 m.e10 m.e11 m.e12 m.e13
    m.e20 m.e21 m.e22 m.e23 m.e30 m.e31 m.e32 m.e33

/-- `Matrix2::minor(i, j) = self.e[1 - i][1 - j]` (a bare scalar). -/
def Matrix2.minor (m : Matrix2) (i j : Nat) : ℚ :=
  m.el (1 - i) (1 - j)

/-- `Matrix3::minor(i, j)`: the deletion loop over `a, b in 0..3` copying
`self.e[a][b]` (for `a ≠ i`, `b ≠ j`) into the next-smaller matrix,
unrolled per index pair.  Out-of-range `i, j` panic in Rust (the loop
would write past the 2×2 bounds); modelled as `zero`, unreachable from
the in-scope callers, which pass `i, j < 3`. -/
def Matrix3.minor (m : Matrix3) (i j : Nat) : Matrix2 :=
  match i, j with
  | 0, 0 => { e00 := m.e11, e01 := m.e12, e10 := m.e21, e11 := m.e22 }
  | 0, 1 => { e00 := m.e10, e01 := m.e12, e10 := m.e20, e11 := m.e22 }
  | 0, 2 => { e00 := m.e10, e01 := m.e11, e10 := m.e20, e11 := m.e21 }
  | 1, 0 => { e00 := m.e01, e01 := m.e02, e10 := m.e21, e11 := m.e22 }
  | 1, 1 => { e00 := m.e00, e01 := m.e02, e10 := m.e20, e11 := m.e22 }
  | 1, 2 => { e00 := m.e00, e01 := m.e01, e10 := m.e20, e11 := m.e21 }
  | 2, 0 => { e00 := m.e01, e01 := m.e02, e10 := m.e11, e11 := m.e12 }
  | 2, 1 => { e00 := m.e00, e01 := m.e02, e10 := m.e10, e11 := m.e12 }
  | 2, 2 => { e00 := m.e00, e01 := m.e01, e10 := m.e10, e11 := m.e11 }
  | _, _ => Matrix2.zero

/-- `Matrix4::minor(i, j)`: same deletion loop over `a, b in 0..4`,
unrolled per index pair (out-of-range indices as in `Matrix3.minor`). -/
def Matrix4.minor (m : Matrix4) (i j : Nat) : Matrix3 :=
  match i, j with
  | 0, 0 => { e00 := m.e11, e01 := m.e12, e02 := m.e13, e10 := m.e21, e11 := m.e22, e12 := m.e23, e20 := m.e31, e21 := m.e32, e22 := m.e33 }
  | 0, 1 => { e00 := m.e10, e01 := m.e12, e02 := m.e13, e10 := m.e20, e11 := m.e22, e12 := m.e23, e20 := m.e30, e21 := m.e32, e22 := m.e33 }
  | 0, 2 => { e00 := m.e10, e01 := m.e11, e02 := m.e13, e10 := m.e20, e11 := m.e21, e12 := m.e23, e20 := m.e30, e21 := m.e31, e22 := m.e33 }
  | 0, 3 => { e00 := m.e10, e01 := m.e11, e02 := m.e12, e10 := m.e20, e11 := m.e21, e12 := m.e22, e20 := m.e30, e21 := m.e31, e22 := m.e32 }
  | 1, 0 => { e00 := m.e01, e01 := m.e02, e02 := m.e03, e10 := m.e21, e11 := m.e22, e12 := m.e23, e20 := m.e31, e21 := m.e32, e22 := m.e33 }
  | 1, 1 => { e00 := m.e00, e01 := m.e02, e02 := m.e03, e10 := m.e20, e11 := m.e22, e12 := m.e23, e20 := m.e30, e21 := m.e32, e22 := m.e33 }
  | 1, 2 => { e00 := m.e00, e01 := m.e01, e02 := m.e03, e10 := m.e20, e11 := m.e21, e12 := m.e23, e20 := m.e30, e21 := m.e31, e22 := m.e33 }
  | 1, 3 => { e00 := m.e00, e01 := m.e01, e02 := m.e02, e10 := m.e20, e11 := m.e21, e12 := m.e22, e20 := m.e30, e21 := m.e31, e22 := m.e32 }
  | 2, 0 => { e00 := m.e01, e01 := m.e02, e02 := m.e03, e10 := m.e11, e11 := m.e12, e12 := m.e13, e20 := m.e31, e21 := m.e32, e22 := m.e33 }
  | 2, 1 => { e00 := m.e00, e01 := m.e02, e02 := m.e03, e10 := m.e10, e11 := m.e12, e12 := m.e13, e20 := m.e30, e21 := m.e32, e22 := m.e33 }
  | 2, 2 => { e00 := m.e00, e01 := m.e01, e02 := m.e03, e10 := m.e10, e11 := m.e11, e12 := m.e13, e20 := m.e30, e21 := m.e31, e22 := m.e33 }
  | 2, 3 => { e00 := m.e00, e01 := m.e01, e02 := m.e02, e10 := m.e10, e11 := m.e11, e12 := m.e12, e20 := m.e30, e21 := m.e31, e22 := m.e32 }
  | 3, 0 => { e00 := m.e01, e01 := m.e02, e02 := m.e03, e10 := m.e11, e11 := m.e12, e12 := m.e13, e20 := m.e21, e21 := m.e22, e22 := m.e23 }
  | 3, 1 => { e00 := m.e00, e01 := m.e02, e02 := m.e03, e10 := m.e10, e11 := m.e12, e12 := m.e13, e20 := m.e20, e21 := m.e22, e22 := m.e23 }
  | 3, 2 => { e00 := m.e00, e01 := m.e01, e02 := m.e03, e10 := m.e10, e11 := m.e11, e12 := m.e13, e20 := m.e20, e21 := m.e21, e22 := m.e23 }
  | 3, 3 => { e00 := m.e00, e01 := m.e01, e02 := m.e02, e10 := m.e10, e11 := m.e11, e12 := m.e12, e20 := m.e20, e21 := m.e21, e22 := m.e22 }
  | _, _ => Matrix3.zero

/-- `Matrix2::determinant() = e[0][0]*minor(0,0) - e[1][0]*minor(1,0)`. -/
def Matrix2.determinant (m : Matrix2) : ℚ :=
  m.e00 * m.minor 0 0 - m.e10 * m.minor 1 0

/-- `Matrix3::determinant()`: cofactor expansion along `e[0][j]`. -/
def Matrix3.determinant (m : Matrix3) : ℚ :=
  m.e00 * (m.minor 0 0).determinant
    - m.e01 * (m.minor 0 1).determinant
    + m.e02 * (m.minor 0 2).determinant

/-- `Matrix4::determinant()`: cofactor expansion along `e[0][j]`. -/
def Matrix4.determinant (m : Matrix4) : ℚ :=
  m.e00 * (m.minor 0 0).determinant
    - m.e01 * (m.minor 0 1).determinant
    + m.e02 * (m.minor 0 2).determinant
    - m.e03 * (m.minor 0 3).determinant

/-- `Matrix2::cofactor(i, j) = minor(i, j) * signum((i%2 - 0.5)*(j%2 - 0.5))`. -/
def Matrix2.cofactor (m : Matrix2) (i j : Nat) : ℚ :=
  m.minor i j * signum ((((i % 2 : Nat) : ℚ) - 0.5) * (((j % 2 : Nat) : ℚ) - 0.5))

/-- `Matrix3::cofactor(i, j) = minor(i, j).determinant() * signum(...)`. -/
def Matrix3.cofactor (m : Matrix3) (i j : Nat) : ℚ :=
  (m.minor i j).determinant * signum ((((i % 2 : Nat) : ℚ) - 0.5) * (((j % 2 : Nat) : ℚ) - 0.5))

/-- `Matrix4::cofactor(i, j) = minor(i, j).determinant() * signum(...)`. -/
def Matrix4.cofactor (m : Matrix4) (i j : Nat) : ℚ :=
  (m.minor i j).determinant * signum ((((i % 2 : Nat) : ℚ) - 0.5) * (((j % 2 : Nat) : ℚ) - 0.5))

/-- `Matrix2::cofactor_matrix()`: the loop pushes `cofactor(j, i)` for
`i` outer and `j` inner over `0..2`, so `c = [cof(0,0), cof(1,0),
cof(0,1), cof(1,1)]`, then returns `new(c[0], c[1], c[2], c[3])`. -/
def Matrix2.cofactor_matrix (m : Matrix2) : Matrix2 :=
  Matrix2.new (m.cofactor 0 0) (m.cofactor 1 0) (m.cofactor 0 1) (m.cofactor 1 1)

/-- `Matrix3::cofactor_matrix()`: `c[3*i + j] = cofactor(j, i)`, fed to `new`. -/
def Matrix3.cofactor_matrix (m : Matrix3) : Matrix3 :=
  Matrix3.new
    (m.cofactor 0 0) (m.cofactor 1 0) (m.cofactor 2 0)
    (m.cofactor 0 1) (m.cofactor 1 1) (m.cofactor 2 1)
    (m.cofactor 0 2) (m.cofactor 1 2) (m.cofactor 2 2)

/-- `Matrix4::cofactor_matrix()`: `c[4*i + j] = cofactor(j, i)`, fed to `new`. -/
def Matrix4.cofactor_matrix (m : Matrix4) : Matrix4 :=
  Matrix4.new
    (m.cofactor 0 0) (m.cofactor 1 0) (m.cofactor 2 0) (m.cofactor 3 0)
    (m.cofactor 0 1) (m.cofactor 1 1) (m.cofactor 2 1) (m.cofactor 3 1)
    (m.cofactor 0 2) (m.cofactor 1 2) (m.cofactor 2 2) (m.cofactor 3 2)
    (m.cofactor 0 3) (m.cofactor 1 3) (m.cofactor 2 3) (m.cofactor 3 3)

/-- `Matrix2::adjugate() = cofactor_matrix().transpose()`. -/
def Matrix2.adjugate (m : Matrix2) : Matrix2 :=
  m.cofactor_matrix.transpose

/-- `Matrix3::adjugate() = cofactor_matrix().transpose()`. -/
def Matrix3.adjugate (m : Matrix3) : Matrix3 :=
  m.cofactor_matrix.transpose

/-- `Matrix4::adjugate() = cofactor_matrix().transpose()`. -/
def Matrix4.adjugate (m : Matrix4) : Matrix4 :=
  m.cofactor_matrix.transpose

/-- `Mul<f32> for Matrix2` (matrix times scalar):
`Self::new(e[0][0]*s, e[0][1]*s, e[1][0]*s, e[1][1]*s)`. -/
def Matrix2.mulScalar (m : Matrix2) (s : ℚ) : Matrix2 :=
  Matrix2.new (m.e00 * s) (m.e01 * s) (m.e10 * s) (m.e11 * s)

/-- `Mul<f32> for Matrix3`. -/
def Matrix3.mulScalar (m : Matrix3) (s : ℚ) : Matrix3 :=
  Matrix3.new (m.e00 * s) (m.e01 * s) (m.e02 * s)
    (m.e10 * s) (m.e11 * s) (m.e12 * s)
    (m.e20 * s) (m.e21 * s) (m.e22 * s)

/-- `Mul<f32> for Matrix4`. -/
def Matrix4.mulScalar (m : Matrix4) (s : ℚ) : Matrix4 :=
  Matrix4.new (m.e00 * s) (m.e01 * s) (m.e02 * s) (m.e03 * s)
    (m.e10 * s) (m.e11 * s) (m.e12 * s) (m.e13 * s)
    (m.e20 * s) (m.e21 * s) (m.e22 * s) (m.e23 * s)
    (m.e30 * s) (m.e31 * s) (m.e32 * s) (m.e33 * s)

/-- `Mul<Matrix2> for f32` (scalar times matrix):
`Matrix2::new(m.e[0][0]*self, m.e[0][1]*self, m.e[1][0]*self, m.e[1][1]*self)`. -/
def Matrix2.scalarMul (s : ℚ) (m : Matrix2) : Matrix2 :=
  Matrix2.new (m.e00 * s) (m.e01 * s) (m.e10 * s) (m.e11 * s)

/-- `Mul<Matrix3> for f32`. -/
def Matrix3.scalarMul (s : ℚ) (m : Matrix3) : Matrix3 :=
  Matrix3.new (m.e00 * s) (m.e01 * s) (m.e02 * s)
    (m.e10 * s) (m.e11 * s) (m.e12 * s)
    (m.e20 * s) (m.e21 * s) (m.e22 * s)

/-- `Mul<Matrix4> for f32`. -/
def Matrix4.scalarMul (s : ℚ) (m : Matrix4) : Matrix4 :=
  Matrix4.new (m.e00 * s) (m.e01 * s) (m.e02 * s) (m.e03 * s)
    (m.e10 * s) (m.e11 * s) (m.e12 * s) (m.e13 * s)
    (m.e20 * s) (m.e21 * s) (m.e22 * s) (m.e23 * s)
    (m.e30 * s) (m.e31 * s) (m.e32 * s) (m.e33 * s)

/-- `MulAssign<f32> for Matrix2`, mutation steps in source order:
`self.e[0][0] *= s; self.e[0][1] *= s; self.e[0][1] *= s; self.e[1][1] *= s;`
(the source repeats `e[0][1]` and never touches `e[1][0]`). -/
def Matrix2.mul_assign (m : Matrix2) (s : ℚ) : Matrix2 :=
  let m1 := { m  with e00 := m.e00 * s }
  let m2 := { m1 with e01 := m1.e01 * s }
  let m3 := { m2 with e01 := m2.e01 * s }
  let m4 := { m3 with e11 := m3.e11 * s }
  m4

/-- `Div<f32> for Matrix2`: `let t = 1.0 / s; self * t`. -/
def Matrix2.divScalar (m : Matrix2) (s : ℚ) : Matrix2 :=
  m.mulScalar (1 / s)

/-- `Div<f32> for Matrix3`. -/
def Matrix3.divScalar (m : Matrix3) (s : ℚ) : Matrix3 :=
  m.mulScalar (1 / s)

/-- `Div<f32> for Matrix4`. -/
def Matrix4.divScalar (m : Matrix4) (s : ℚ) : Matrix4 :=
  m.mulScalar (1 / s)

/-- `Mul<Matrix2> for Matrix2`, the four sum-of-products arguments fed to
`Self::new` exactly as in the source. -/
def Matrix2.mulMat (a m : Matrix2) : Matrix2 :=
  Matrix2.new
    (a.e00 * m.e00 + a.e01 * m.e10)
    (a.e00 * m.e01 + a.e01 * m.e11)
    (a.e10 * m.e00 + a.e11 * m.e10)
    (a.e10 * m.e01 + a.e11 * m.e11)

/-- `Mul<Matrix3> for Matrix3`. -/
def Matrix3.mulMat (a m : Matrix3) : Matrix3 :=
  Matrix3.new
    (a.e00 * m.e00 + a.e01 * m.e10 + a.e02 * m.e20)
    (a.e00 * m.e01 + a.e01 * m.e11 + a.e02 * m.e21)
    (a.e00 * m.e02 + a.e01 * m.e12 + a.e02 * m.e22)
    (a.e10 * m.e00 + a.e11 * m.e10 + a.e12 * m.e20)
    (a.e10 * m.e01 + a.e11 * m.e11 + a.e12 * m.e21)
    (a.e10 * m.e02 + a.e11 * m.e12 + a.e12 * m.e22)
    (a.e20 * m.e00 + a.e21 * m.e10 + a.e22 * m.e20)
    (a.e20 * m.e01 + a.e21 * m.e11 + a.e22 * m.e21)
    (a.e20 * m.e02 + a.e21 * m.e12 + a.e22 * m.e22)

/-- `Mul<Matrix4> for Matrix4`. -/
def Matrix4.mulMat (a m : Matrix4) : Matrix4 :=
  Matrix4.new
    (a.e00 * m.e00 + a.e01 * m.e10 + a.e02 * m.e20 + a.e03 * m.e30)
    (a.e00 * m.e01 + a.e01 * m.e11 + a.e02 * m.e21 + a.e03 * m.e31)
    (a.e00 * m.e02 + a.e01 * m.e12 + a.e02 * m.e22 + a.e03 * m.e32)
    (a.e00 * m.e03 + a.e01 * m.e13 + a.e02 * m.e23 + a.e03 * m.e33)
    (a.e10 * m.e00 + a.e11 * m.e10 + a.e12 * m.e20 + a.e13 * m.e30)
    (a.e10 * m.e01 + a.e11 * m.e11 + a.e12 * m.e21 + a.e13 * m.e31)
    (a.e10 * m.e02 + a.e11 * m.e12 + a.e12 * m.e22 + a.e13 * m.e32)
    (a.e10 * m.e03 + a.e11 * m.e13 + a.e12 * m.e23 + a.e13 * m.e33)
    (a.e20 * m.e00 + a.e21 * m.e10 + a.e22 * m.e20 + a.e23 * m.e30)
    (a.e20 * m.e01 + a.e21 * m.e11 + a.e22 * m.e21 + a.e23 * m.e31)
    (a.e20 * m.e02 + a.e21 * m.e12 + a.e22 * m.e22 + a.e23 * m.e32)
    (a.e20 * m.e03 + a.e21 * m.e13 + a.e22 * m.e23 + a.e23 * m.e33)
    (a.e30 * m.e00 + a.e31 * m.e10 + a.e32 * m.e20 + a.e33 * m.e30)
    (a.e30 * m.e01 + a.e31 * m.e11 + a.e32 * m.e21 + a.e33 * m.e31)
    (a.e30 * m.e02 + a.e31 * m.e12 + a.e32 * m.e22 + a.e33 * m.e32)
    (a.e30 * m.e03 + a.e31 * m.e13 + a.e32 * m.e23 + a.e33 * m.e33)

/-- `Matrix2::inverse()`: zero matrix when the determinant is zero, else
`adjugate() / determinant()`. -/
def Matrix2.inverse (m : Matrix2) : Matrix2 :=
  if m.determinant = 0 then Matrix2.zero
  else m.adjugate.divScalar m.determinant

/-- `Matrix3::inverse()`. -/
def Matrix3.inverse (m : Matrix3) : Matrix3 :=
  if m.determinant = 0 then Matrix3.zero
  else m.adjugate.divScalar m.determinant

/-- `Matrix4::inverse()`. -/
def Matrix4.inverse (m : Matrix4) : Matrix4 :=
  if m.determinant = 0 then Matrix4.zero
  else m.adjugate.divScalar m.determinant

/-- `Matrix2::triangular_lower()`:
`from_vector2(col0, col1 - (col1.x / col0.x) * col0)`. -/
def Matrix2.triangular_lower (m : Matrix2) : Matrix2 :=
  let col0 := m.column 0
  let col1 := m.column 1
  Matrix2.from_vector2 col0 (col1.sub (Vector2.scalarMul (col1.x / col0.x) col0))

/-- `Matrix3::triangular_lower()`. -/
def Matrix3.triangular_lower (m : Matrix3) : Matrix3 :=
  let col0 := m.column 0
  let col1 := m.column 1
  let col2 := m.column 2
  let col1_a := col1.sub (col0.mulScalar (col1.x / col0.x))
  let col2_a := col2.sub (col0.mulScalar (col2.x / col0.x))
  let col2_b := col2_a.sub (col1_a.mulScalar (col2_a.y / col1_a.y))
  Matrix3.from_vector3 col0 col1_a col2_b

/-- `Matrix4::triangular_lower()`. -/
def Matrix4.triangular_lower (m : Matrix4) : Matrix4 :=
  let col0 := m.column 0
  let col1 := m.column 1
  let col2 := m.column 2
  let col3 := m.column 3
  let col1_a := col1.sub (col0.mulScalar (col1.x / col0.x))
  let col2_a := col2.sub (col0.mulScalar (col2.x / col0.x))
  let col3_a := col3.sub (col0.mulScalar (col3.x / col0.x))
  let col2_b := col2_a.sub (col1_a.mulScalar (col2_a.y / col1_a.y))
  let col3_b := col3_a.sub (col1_a.mulScalar (col3_a.y / col1_a.y))
  let col3_c := col3_b.sub (col2_b.mulScalar (col3_b.z / col2_b.z))
  Matrix4.from_vector4 col0 col1_a col2_b col3_c

/-- `Matrix2::determinant2()`: product of the diagonal of `triangular_lower()`. -/
def Matrix2.determinant2 (m : Matrix2) : ℚ :=
  let dia := m.triangular_lower.diagonal
  dia.x * dia.y

/-- `Matrix3::determinant2()`. -/
def Matrix3.determinant2 (m : Matrix3) : ℚ :=
  let dia := m.triangular_lower.diagonal
  dia.x * dia.y * dia.z

/-- `Matrix4::determinant2()`. -/
def Matrix4.determinant2 (m : Matrix4) : ℚ :=
  let dia := m.triangular_lower.diagonal
  dia.x * dia.y * dia.z * dia.w

/-- `Matrix4::rotation_z(t)` builds its matrix from `cos = cos t` and
`sin = sin t`; embedded over that precomputed pair (the trigonometric
evaluation is the only elided step).  The third literal row in the
source is `0.0, 0.0, 0.0, 0.0`. -/
def Matrix4.rotation_z (cos sin : ℚ) : Matrix4 :=
  Matrix4.new
    cos (-sin) 0 0
    sin cos 0 0
    0 0 0 0
    0 0 0 1

/-- `Matrix4::rotation(t, v)` (Rodrigues axis-angle), embedded over the
precomputed pair `cos = cos t`, `sin = sin t` exactly as the source
computes `d`, `x`, `y`, `z`, `vxvy`, `vxvz`, `vyvz`. -/
def Matrix4.rotation (cos sin : ℚ) (v : Vector3) : Matrix4 :=
  let d := 1 - cos
  let x := v.x * d
  let y := v.y * d
  let z := v.z * d
  let vxvy := x * v.y
  let vxvz := x * v.z
  let vyvz := y * v.z
  Matrix4.new
    (cos + x * v.x) (vxvy - sin * v.z) (vxvz + sin * v.y) 0
    (vxvy + sin * v.z) (cos + y * v.y) (vyvz - sin * v.x) 0
    (vxvz - sin * v.y) (vyvz + sin * v.x) (cos + z * v.z) 0
    0 0 0 1

/-
Real-valued measurements.  `sqrt`, `acos`, `atan2` have no exact rational
form, so these definitions live over `ℝ` (and are necessarily
noncomputable); the vector components stay rational and are cast.
-/

/-- Constant `TAU = 6.2831853071796` from `num::constants`, the `f32`
approximation of `2π`; idealized here to the exact value `2 * π`. -/
noncomputable def TAU : ℝ := 2 * Real.pi

/-- Model of `f32::atan2(y, x)` for finite inputs (the IEEE/libm case
split), with range `(-π, π]`. -/
noncomputable def atan2 (y x : ℝ) : ℝ :=
  if 0 < x then Real.arctan (y / x)
  else if x < 0 then
    (if 0 ≤ y then Real.arctan (y / x) + Real.pi else Real.arctan (y / x) - Real.pi)
  else if 0 < y then Real.pi / 2
  else if y < 0 then -(Real.pi / 2)
  else 0

/-- `Vector2::magnitude() = sqrt((*self) * (*self))`. -/
noncomputable def Vector2.magnitude (v : Vector2) : ℝ :=
  Real.sqrt ((v.dot v : ℚ) : ℝ)

/-- `Vector3::magnitude()`. -/
noncomputable def Vector3.magnitude (v : Vector3) : ℝ :=
  Real.sqrt ((v.dot v : ℚ) : ℝ)

/-- `Vector4::magnitude()`. -/
noncomputable def Vector4.magnitude (v : Vector4) : ℝ :=
  Real.sqrt ((v.dot v : ℚ) : ℝ)

/-- `Vector2::angle(a, b) = acos((a * b) / (a.magnitude() * b.magnitude()))`. -/
noncomputable def Vector2.angle (a b : Vector2) : ℝ :=
  Real.arccos (((a.dot b : ℚ) : ℝ) / (a.magnitude * b.magnitude))

/-- `Vector3::angle(a, b)`. -/
noncomputable def Vector3.angle (a b : Vector3) : ℝ :=
  Real.arccos (((a.dot b : ℚ) : ℝ) / (a.magnitude * b.magnitude))

/-- `Vector4::angle(a, b)`. -/
noncomputable def Vector4.angle (a b : Vector4) : ℝ :=
  Real.arccos (((a.dot b : ℚ) : ℝ) / (a.magnitude * b.magnitude))

/-- `Vector2::angle_safe(a, b)`: `f32::NAN` when
`a.magnitude() * b.magnitude() <= f32::EPSILON`, else `angle(a, b)`.
The NaN sentinel is modelled as `none`. -/
noncomputable def Vector2.angle_safe (a b : Vector2) : Option ℝ :=
  let d := a.magnitude * b.magnitude
  if d ≤ ((EPSILON : ℚ) : ℝ) then none else some (Vector2.angle a b)

/-- `Vector3::angle_safe(a, b)`. -/
noncomputable def Vector3.angle_safe (a b : Vector3) : Option ℝ :=
  let d := a.magnitude * b.magnitude
  if d ≤ ((EPSILON : ℚ) : ℝ) then none else some (Vector3.angle a b)

/-- `Vector4::angle_safe(a, b)`. -/
noncomputable def Vector4.angle_safe (a b : Vector4) : Option ℝ :=
  let d := a.magnitude * b.magnitude
  if d ≤ ((EPSILON : ℚ) : ℝ) then none else some (Vector4.angle a b)

/-- `Vector2::angle_signed(a, b)`: `atan2(a / b, a * b)` (cross, dot),
remapped by `+ TAU` when negative. -/
noncomputable def Vector2.angle_signed (a b : Vector2) : ℝ :=
  let dot := a.dot b
  let det := a.cross b
  let angle := atan2 ((det : ℚ) : ℝ) ((dot : ℚ) : ℝ)
  if angle < 0 then angle + TAU else angle

/-
Helper lemmas: literal-index evaluations of the dynamic accessors and of
the cofactor sign factor, shared by the claim proofs below.
-/

theorem signum_00 : signum ((((0 % 2 : Nat) : ℚ) - 0.5) * (((0 % 2 : Nat) : ℚ) - 0.5)) = 1 := by
  norm_num [signum]

theorem signum_01 : signum ((((0 % 2 : Nat) : ℚ) - 0.5) * (((1 % 2 : Nat) : ℚ) - 0.5)) = -1 := by
  norm_num [signum]

theorem signum_02 : signum ((((0 % 2 : Nat) : ℚ) - 0.5) * (((2 % 2 : Nat) : ℚ) - 0.5)) = 1 := by
  norm_num [signum]

theorem signum_03 : signum ((((0 % 2 : Nat) : ℚ) - 0.5) * (((3 % 2 : Nat) : ℚ) - 0.5)) = -1 := by
  norm_num [signum]

theorem signum_10 : signum ((((1 % 2 : Nat) : ℚ) - 0.5) * (((0 % 2 : Nat) : ℚ) - 0.5)) = -1 := by
  norm_num [signum]

theorem signum_11 : signum ((((1 % 2 : Nat) : ℚ) - 0.5) * (((1 % 2 : Nat) : ℚ) - 0.5)) = 1 := by
  norm_num [signum]

theorem signum_12 : signum ((((1 % 2 : Nat) : ℚ) - 0.5) * (((2 % 2 : Nat) : ℚ) - 0.5)) = -1 := by
  norm_num [signum]

theorem signum_13 : signum ((((1 % 2 : Nat) : ℚ) - 0.5) * (((3 % 2 : Nat) : ℚ) - 0.5)) = 1 := by
  norm_num [signum]

theorem signum_20 : signum ((((2 % 2 : Nat) : ℚ) - 0.5) * (((0 % 2 : Nat) : ℚ) - 0.5)) = 1 := by
  norm_num [signum]

theorem signum_21 : signum ((((2 % 2 : Nat) : ℚ) - 0.5) * (((1 % 2 : Nat) : ℚ) - 0.5)) = -1 := by
  norm_num [signum]

theorem signum_22 : signum ((((2 % 2 : Nat) : ℚ) - 0.5) * (((2 % 2 : Nat) : ℚ) - 0.5)) = 1 := by
  norm_num [signum]

theorem signum_23 : signum ((((2 % 2 : Nat) : ℚ) - 0.5) * (((3 % 2 : Nat) : ℚ) - 0.5)) = -1 := by
  norm_num [signum]

theorem signum_30 : signum ((((3 % 2 : Nat) : ℚ) - 0.5) * (((0 % 2 : Nat) : ℚ) - 0.5)) = -1 := by
  norm_num [signum]

theorem signum_31 : signum ((((3 % 2 : Nat) : ℚ) - 0.5) * (((1 % 2 : Nat) : ℚ) - 0.5)) = 1 := by
  norm_num [signum]

theorem signum_32 : signum ((((3 % 2 : Nat) : ℚ) - 0.5) * (((2 % 2 : Nat) : ℚ) - 0.5)) = -1 := by
  norm_num [signum]

theorem signum_33 : signum ((((3 % 2 : Nat) : ℚ) - 0.5) * (((3 % 2 : Nat) : ℚ) - 0.5)) = 1 := by
  norm_num [signum]

theorem Matrix2.minor_00 (m : Matrix2) : m.minor 0 0 = m.e11 := rfl

theorem Matrix2.minor_01 (m : Matrix2) : m.minor 0 1 = m.e10 := rfl

theorem Matrix2.minor_10 (m : Matrix2) : m.minor 1 0 = m.e01 := rfl

theorem Matrix2.minor_11 (m : Matrix2) : m.minor 1 1 = m.e00 := rfl

theorem Matrix2.column2_0 (m : Matrix2) : m.column 0 = Vector2.new m.e00 m.e10 := rfl

theorem Matrix2.column2_1 (m : Matrix2) : m.column 1 = Vector2.new m.e01 m.e11 := rfl

theorem Matrix3.column3_0 (m : Matrix3) : m.column 0 = Vector3.new m.e00 m.e10 m.e20 := rfl

theorem Matrix3.column3_1 (m : Matrix3) : m.column 1 = Vector3.new m.e01 m.e11 m.e21 := rfl

theorem Matrix3.column3_2 (m : Matrix3) : m.column 2 = Vector3.new m.e02 m.e12 m.e22 := rfl

theorem Matrix4.column4_0 (m : Matrix4) : m.column 0 = Vector4.new m.e00 m.e10 m.e20 m.e30 := rfl

theorem Matrix4.column4_1 (m : Matrix4) : m.column 1 = Vector4.new m.e01 m.e11 m.e21 m.e31 := rfl

theorem Matrix4.column4_2 (m : Matrix4) : m.column 2 = Vector4.new m.e02 m.e12 m.e22 m.e32 := rfl

theorem Matrix4.column4_3 (m : Matrix4) : m.column 3 = Vector4.new m.e03 m.e13 m.e23 m.e33 := rfl

/-- The modelled `atan2` always lands in `(-π, π]`. -/
theorem atan2_range (y x : ℝ) : -Real.pi < atan2 y x ∧ atan2 y x ≤ Real.pi := by
  have hpi := Real.pi_pos
  have hu := Real.arctan_lt_pi_div_two (y / x)
  have hl := Real.neg_pi_div_two_lt_arctan (y / x)
  unfold atan2
  by_cases hx : 0 < x
  · simp only [hx, if_true]
    constructor <;> linarith
  · simp only [hx, if_false]
    by_cases hx2 : x < 0
    · simp only [hx2, if_true]
      by_cases hy : 0 ≤ y
      · have hq : y / x ≤ 0 := div_nonpos_iff.mpr (Or.inl ⟨hy, le_of_lt hx2⟩)
        have harc : Real.arctan (y / x) ≤ 0 := by
          have hmono := Real.arctan_strictMono.monotone hq
          rwa [Real.arctan_zero] at hmono
        simp only [hy, if_true]
        constructor <;> linarith
      · have hy2 : y < 0 := lt_of_not_le hy
        have hq : 0 < y / x := div_pos_of_neg_of_neg hy2 hx2
        have harc : 0 < Real.arctan (y / x) := by
          have hmono := Real.arctan_strictMono hq
          rwa [Real.arctan_zero] at hmono
        simp only [hy, if_false]
        constructor <;> linarith
    · simp only [hx2, if_false]
      by_cases hy : 0 < y
      · simp only [hy, if_true]
        constructor <;> linarith
      · simp only [hy, if_false]
        by_cases hy2 : y < 0
        · simp only [hy2, if_true]
          constructor <;> linarith
        · simp only [hy2, if_false]
          constructor <;> linarith

/-
Claim theorems.
-/

set_option maxHeartbeats 6400000 in
/-- C1: for every matrix (2×2, 3×3, 4×4), `M * adjugate(M)` equals
`determinant(M) * Identity` (scalar-times-matrix as in the source's
`Mul<MatrixN> for f32`).  The identity holds unconditionally in exact
arithmetic. -/
theorem C1_adjugate_identity :
    (∀ m : Matrix2, m.mulMat m.adjugate = Matrix2.scalarMul m.determinant Matrix2.identity) ∧
    (∀ m : Matrix3, m.mulMat m.adjugate = Matrix3.scalarMul m.determinant Matrix3.identity) ∧
    (∀ m : Matrix4, m.mulMat m.adjugate = Matrix4.scalarMul m.determinant Matrix4.identity) := by
  refine ⟨fun m => ?_, fun m => ?_, fun m => ?_⟩
  · obtain ⟨a, b, c, d⟩ := m
    simp only [Matrix2.mulMat, Matrix2.adjugate, Matrix2.cofactor_matrix, Matrix2.transpose,
      Matrix2.cofactor, Matrix2.minor_00, Matrix2.minor_01, Matrix2.minor_10, Matrix2.minor_11,
      Matrix2.new, Matrix2.determinant, Matrix2.scalarMul, Matrix2.identity,
      signum_00, signum_01, signum_10, signum_11, Matrix2.mk.injEq]
    repeat' apply And.intro
    all_goals first | trivial | ring
  · obtain ⟨a, b, c, d, e, f, g, h, i⟩ := m
    simp only [Matrix3.mulMat, Matrix3.adjugate, Matrix3.cofactor_matrix, Matrix3.transpose,
      Matrix3.cofactor, Matrix3.minor, Matrix2.determinant, Matrix2.minor_00, Matrix2.minor_10,
      Matrix3.new, Matrix3.determinant, Matrix3.scalarMul, Matrix3.identity,
      signum_00, signum_01, signum_02, signum_10, signum_11, signum_12,
      signum_20, signum_21, signum_22, Matrix3.mk.injEq]
    repeat' apply And.intro
    all_goals first | trivial | ring
  · obtain ⟨a, b, c, d, e, f, g, h, i, j, k, l, n, o, p, q⟩ := m
    simp only [Matrix4.mulMat, Matrix4.adjugate, Matrix4.cofactor_matrix, Matrix4.transpose,
      Matrix4.cofactor, Matrix4.minor, Matrix3.determinant, Matrix3.minor, Matrix2.determinant,
      Matrix2.minor_00, Matrix2.minor_10, Matrix4.new, Matrix4.determinant, Matrix4.scalarMul,
      Matrix4.identity, signum_00, signum_01, signum_02, signum_03, signum_10, signum_11,
      signum_12, signum_13, signum_20, signum_21, signum_22, signum_23, signum_30, signum_31,
      signum_32, signum_33, Matrix4.mk.injEq]
    repeat' apply And.intro
    all_goals first | trivial | ring

/-- C2 counterexample: for `Matrix2::new(1,2,3,4)`, whose row-major rows
are `(1,2)` and `(3,4)`, `row(0)` does not return the 0th row. -/
theorem C2_row_counterexample : (Matrix2.new 1 2 3 4).row 0 ≠ Vector2.new 1 2 := by
  simp [Matrix2.new, Matrix2.row, Matrix2.el, Vector2.new, Vector2.mk.injEq]

/-- C2 amended: for every matrix built with the row-major literal
constructor, `row(i)` returns the i-th COLUMN of the written matrix and
`column(j)` returns its j-th ROW (the storage indexing is
`e[col][row]`, not `e[row][col]`). -/
theorem C2_row_column_amended :
    (∀ a b c d : ℚ,
      (Matrix2.new a b c d).row 0 = Vector2.new a c ∧
      (Matrix2.new a b c d).row 1 = Vector2.new b d ∧
      (Matrix2.new a b c d).column 0 = Vector2.new a b ∧
      (Matrix2.new a b c d).column 1 = Vector2.new c d) ∧
    (∀ a b c d e f g h i : ℚ,
      (Matrix3.new a b c d e f g h i).row 0 = Vector3.new a d g ∧
      (Matrix3.new a b c d e f g h i).row 1 = Vector3.new b e h ∧
      (Matrix3.new a b c d e f g h i).row 2 = Vector3.new c f i ∧
      (Matrix3.new a b c d e f g h i).column 0 = Vector3.new a b c ∧
      (Matrix3.new a b c d e f g h i).column 1 = Vector3.new d e f ∧
      (Matrix3.new a b c d e f g h i).column 2 = Vector3.new g h i) ∧
    (∀ a b c d e f g h i j k l m n o p : ℚ,
      (Matrix4.new a b c d e f g h i j k l m n o p).row 0 = Vector4.new a e i m ∧
      (Matrix4.new a b c d e f g h i j k l m n o p).row 1 = Vector4.new b f j n ∧
      (Matrix4.new a b c d e f g h i j k l m n o p).row 2 = Vector4.new c g k o ∧
      (Matrix4.new a b c d e f g h i j k l m n o p).row 3 = Vector4.new d h l p ∧
      (Matrix4.new a b c d e f g h i j k l m n o p).column 0 = Vector4.new a b c d ∧
      (Matrix4.new a b c d e f g h i j k l m n o p).column 1 = Vector4.new e f g h ∧
      (Matrix4.new a b c d e f g h i j k l m n o p).column 2 = Vector4.new i j k l ∧
      (Matrix4.new a b c d e f g h i j k l m n o p).column 3 = Vector4.new m n o p) :=
  ⟨fun _ _ _ _ => ⟨rfl, rfl, rfl, rfl⟩,
   fun _ _ _ _ _ _ _ _ _ => ⟨rfl, rfl, rfl, rfl, rfl, rfl⟩,
   fun _ _ _ _ _ _ _ _ _ _ _ _ _ _ _ _ => ⟨rfl, rfl, rfl, rfl, rfl, rfl, rfl, rfl⟩⟩

set_option maxHeartbeats 6400000 in
/-- C3: for matrices whose triangularization pivots (the leading
diagonal entries of `triangular_lower()`) are nonzero, the
cofactor-expansion determinant and the triangular-diagonal-product
determinant agree; and both return `-2` on `Matrix2::new(1,2,3,4)`. -/
theorem C3_determinant_agreement :
    (∀ m : Matrix2, m.triangular_lower.diagonal.x ≠ 0 →
      m.determinant = m.determinant2) ∧
    (∀ m : Matrix3, m.triangular_lower.diagonal.x ≠ 0 →
      m.triangular_lower.diagonal.y ≠ 0 →
      m.determinant = m.determinant2) ∧
    (∀ m : Matrix4, m.triangular_lower.diagonal.x ≠ 0 →
      m.triangular_lower.diagonal.y ≠ 0 →
      m.triangular_lower.diagonal.z ≠ 0 →
      m.determinant = m.determinant2) ∧
    (Matrix2.new 1 2 3 4).determinant = -2 ∧
    (Matrix2.new 1 2 3 4).determinant2 = -2 := by
  refine ⟨fun m h1 => ?_, fun m h1 h2 => ?_, fun m h1 h2 h3 => ?_, ?_, ?_⟩
  · obtain ⟨a, b, c, d⟩ := m
    simp only [Matrix2.triangular_lower, Matrix2.column2_0, Matrix2.column2_1, Matrix2.diagonal,
      Matrix2.from_vector2, Matrix2.new, Vector2.new, Vector2.sub, Vector2.scalarMul] at h1
    simp only [Matrix2.determinant, Matrix2.determinant2, Matrix2.minor_00, Matrix2.minor_10,
      Matrix2.triangular_lower, Matrix2.column2_0, Matrix2.column2_1, Matrix2.diagonal,
      Matrix2.from_vector2, Matrix2.new, Vector2.new, Vector2.sub, Vector2.scalarMul]
    field_simp
    ring
  · obtain ⟨a, b, c, d, e, f, g, h, i⟩ := m
    simp only [Matrix3.triangular_lower, Matrix3.column3_0, Matrix3.column3_1, Matrix3.column3_2,
      Matrix3.diagonal, Matrix3.from_vector3, Matrix3.new, Vector3.new, Vector3.sub,
      Vector3.mulScalar] at h1 h2
    simp only [Matrix3.determinant, Matrix3.determinant2, Matrix3.minor, Matrix2.determinant,
      Matrix2.minor_00, Matrix2.minor_10, Matrix3.triangular_lower, Matrix3.column3_0,
      Matrix3.column3_1, Matrix3.column3_2, Matrix3.diagonal, Matrix3.from_vector3, Matrix3.new,
      Vector3.new, Vector3.sub, Vector3.mulScalar]
    field_simp at h2
    field_simp
    ring
  · obtain ⟨a, b, c, d, e, f, g, h, i, j, k, l, n, o, p, q⟩ := m
    simp only [Matrix4.triangular_lower, Matrix4.column4_0, Matrix4.column4_1, Matrix4.column4_2,
      Matrix4.column4_3, Matrix4.diagonal, Matrix4.from_vector4, Matrix4.new, Vector4.new,
      Vector4.sub, Vector4.mulScalar] at h1 h2 h3
    simp only [Matrix4.determinant, Matrix4.determinant2, Matrix4.minor, Matrix3.determinant,
      Matrix3.minor, Matrix2.determinant, Matrix2.minor_00, Matrix2.minor_10,
      Matrix4.triangular_lower, Matrix4.column4_0, Matrix4.column4_1, Matrix4.column4_2,
      Matrix4.column4_3, Matrix4.diagonal, Matrix4.from_vector4, Matrix4.new, Vector4.new,
      Vector4.sub, Vector4.mulScalar]
    field_simp at h2
    field_simp at h3
    field_simp
    ring
  · norm_num [Matrix2.new, Matrix2.determinant, Matrix2.minor_00, Matrix2.minor_10]
  · norm_num [Matrix2.new, Matrix2.determinant2, Matrix2.triangular_lower, Matrix2.column2_0,
      Matrix2.column2_1, Matrix2.diagonal, Matrix2.from_vector2, Vector2.new, Vector2.sub,
      Vector2.scalarMul]

/-- C3 witness: the agreement applied at the identity matrices, whose
pivots are all `1`. -/
theorem C3_determinant_agreement_witness :
    Matrix2.identity.determinant = Matrix2.identity.determinant2 ∧
    Matrix3.identity.determinant = Matrix3.identity.determinant2 ∧
    Matrix4.identity.determinant = Matrix4.identity.determinant2 := by
  refine ⟨C3_determinant_agreement.1 _ ?_, C3_determinant_agreement.2.1 _ ?_ ?_,
    C3_determinant_agreement.2.2.1 _ ?_ ?_ ?_⟩
  · norm_num [Matrix2.identity, Matrix2.new, Matrix2.triangular_lower, Matrix2.column2_0,
      Matrix2.column2_1, Matrix2.diagonal, Matrix2.from_vector2, Vector2.new, Vector2.sub,
      Vector2.scalarMul]
  · norm_num [Matrix3.identity, Matrix3.new, Matrix3.triangular_lower, Matrix3.column3_0,
      Matrix3.column3_1, Matrix3.column3_2, Matrix3.diagonal, Matrix3.from_vector3, Vector3.new,
      Vector3.sub, Vector3.mulScalar]
  · norm_num [Matrix3.identity, Matrix3.new, Matrix3.triangular_lower, Matrix3.column3_0,
      Matrix3.column3_1, Matrix3.column3_2, Matrix3.diagonal, Matrix3.from_vector3, Vector3.new,
      Vector3.sub, Vector3.mulScalar]
  · norm_num [Matrix4.identity, Matrix4.new, Matrix4.triangular_lower, Matrix4.column4_0,
      Matrix4.column4_1, Matrix4.column4_2, Matrix4.column4_3, Matrix4.diagonal,
      Matrix4.from_vector4, Vector4.new, Vector4.sub, Vector4.mulScalar]
  · norm_num [Matrix4.identity, Matrix4.new, Matrix4.triangular_lower, Matrix4.column4_0,
      Matrix4.column4_1, Matrix4.column4_2, Matrix4.column4_3, Matrix4.diagonal,
      Matrix4.from_vector4, Vector4.new, Vector4.sub, Vector4.mulScalar]
  · norm_num [Matrix4.identity, Matrix4.new, Matrix4.triangular_lower, Matrix4.column4_0,
      Matrix4.column4_1, Matrix4.column4_2, Matrix4.column4_3, Matrix4.diagonal,
      Matrix4.from_vector4, Vector4.new, Vector4.sub, Vector4.mulScalar]

/-- C4: code bug.  The source computes the real part of a complex
product as `self.r * self.i - c.r * c.i` instead of the documented
`self.r * c.r - self.i * c.i`; at `(2+3i)*(1+1i)` it returns `5 + 5i`
while the standard formula `(ac-bd)+(ad+bc)i` gives `-1 + 5i`. -/
theorem C4_complex_mul_bug :
    Complex.mul (Complex.new 2 3) (Complex.new 1 1) = Complex.new 5 5 ∧
    Complex.new (5 : ℚ) (5 : ℚ) ≠ Complex.new (2 * 1 - 3 * 1) (2 * 1 + 3 * 1) := by
  constructor
  · norm_num [Complex.mul, Complex.new, Complex.mk.injEq]
  · norm_num [Complex.new, Complex.mk.injEq]

/-- C5: `inverse()` returns the zero matrix when the determinant is zero
and `adjugate() / determinant()` (the source's own scalar division)
otherwise, for all three sizes. -/
theorem C5_inverse_policy :
    (∀ m : Matrix2, (m.determinant = 0 → m.inverse = Matrix2.zero) ∧
      (m.determinant ≠ 0 → m.inverse = m.adjugate.divScalar m.determinant)) ∧
    (∀ m : Matrix3, (m.determinant = 0 → m.inverse = Matrix3.zero) ∧
      (m.determinant ≠ 0 → m.inverse = m.adjugate.divScalar m.determinant)) ∧
    (∀ m : Matrix4, (m.determinant = 0 → m.inverse = Matrix4.zero) ∧
      (m.determinant ≠ 0 → m.inverse = m.adjugate.divScalar m.determinant)) := by
  refine ⟨fun m => ⟨fun h => ?_, fun h => ?_⟩, fun m => ⟨fun h => ?_, fun h => ?_⟩,
    fun m => ⟨fun h => ?_, fun h => ?_⟩⟩
  · simp [Matrix2.inverse, h]
  · simp [Matrix2.inverse, h]
  · simp [Matrix3.inverse, h]
  · simp [Matrix3.inverse, h]
  · simp [Matrix4.inverse, h]
  · simp [Matrix4.inverse, h]

/-- C5 witness: both branches exercised at the zero and identity
matrices of each size. -/
theorem C5_inverse_policy_witness :
    Matrix2.zero.inverse = Matrix2.zero ∧
    Matrix2.identity.inverse = Matrix2.identity.adjugate.divScalar Matrix2.identity.determinant ∧
    Matrix3.zero.inverse = Matrix3.zero ∧
    Matrix3.identity.inverse = Matrix3.identity.adjugate.divScalar Matrix3.identity.determinant ∧
    Matrix4.zero.inverse = Matrix4.zero ∧
    Matrix4.identity.inverse = Matrix4.identity.adjugate.divScalar Matrix4.identity.determinant := by
  refine ⟨(C5_inverse_policy.1 _).1 ?_, (C5_inverse_policy.1 _).2 ?_,
    (C5_inverse_policy.2.1 _).1 ?_, (C5_inverse_policy.2.1 _).2 ?_,
    (C5_inverse_policy.2.2 _).1 ?_, (C5_inverse_policy.2.2 _).2 ?_⟩
  · norm_num [Matrix2.zero, Matrix2.new, Matrix2.determinant, Matrix2.minor_00, Matrix2.minor_10]
  · norm_num [Matrix2.identity, Matrix2.new, Matrix2.determinant, Matrix2.minor_00,
      Matrix2.minor_10]
  · norm_num [Matrix3.zero, Matrix3.new, Matrix3.determinant, Matrix3.minor, Matrix2.determinant,
      Matrix2.minor_00, Matrix2.minor_10]
  · norm_num [Matrix3.identity, Matrix3.new, Matrix3.determinant, Matrix3.minor,
      Matrix2.determinant, Matrix2.minor_00, Matrix2.minor_10]
  · norm_num [Matrix4.zero, Matrix4.new, Matrix4.determinant, Matrix4.minor, Matrix3.determinant,
      Matrix3.minor, Matrix2.determinant, Matrix2.minor_00, Matrix2.minor_10]
  · norm_num [Matrix4.identity, Matrix4.new, Matrix4.determinant, Matrix4.minor,
      Matrix3.determinant, Matrix3.minor, Matrix2.determinant, Matrix2.minor_00, Matrix2.minor_10]

/-- C6: code bug.  `rotation_z` writes `0.0` into the third diagonal
slot (`e[2][2]`), so at `t = 0` (`cos t = 1`, `sin t = 0`) it is not the
identity, while the Rodrigues `rotation` about `(0,0,1)` is. -/
theorem C6_rotation_z_bug :
    Matrix4.rotation_z 1 0 ≠ Matrix4.identity ∧
    Matrix4.rotation 1 0 (Vector3.new 0 0 1) = Matrix4.identity ∧
    (Matrix4.rotation_z 1 0).e22 = 0 ∧ Matrix4.identity.e22 = 1 := by
  refine ⟨?_, ?_, rfl, rfl⟩
  · norm_num [Matrix4.rotation_z, Matrix4.identity, Matrix4.new, Matrix4.mk.injEq]
  · norm_num [Matrix4.rotation, Matrix4.identity, Matrix4.new, Vector3.new, Matrix4.mk.injEq]

/-- C7: `angle_signed(a, b)` is `atan2(cross(a,b), dot(a,b))` with `TAU`
added when negative, always lies in `[0, TAU)` where `TAU = 2π`, and
takes the values `π/2` and `3π/2` on the two axis examples. -/
theorem C7_angle_signed_spec :
    (∀ a b : Vector2, a.angle_signed b =
      (if atan2 ((a.cross b : ℚ) : ℝ) ((a.dot b : ℚ) : ℝ) < 0 then
        atan2 ((a.cross b : ℚ) : ℝ) ((a.dot b : ℚ) : ℝ) + TAU
      else atan2 ((a.cross b : ℚ) : ℝ) ((a.dot b : ℚ) : ℝ))) ∧
    (∀ a b : Vector2, 0 ≤ a.angle_signed b ∧ a.angle_signed b < TAU) ∧
    Vector2.angle_signed (Vector2.new 1 0) (Vector2.new 0 1) = Real.pi / 2 ∧
    Vector2.angle_signed (Vector2.new 0 1) (Vector2.new 1 0) = 3 * Real.pi / 2 := by
  refine ⟨fun a b => rfl, fun a b => ?_, ?_, ?_⟩
  · have hpi := Real.pi_pos
    obtain ⟨hl, hu⟩ := atan2_range ((a.cross b : ℚ) : ℝ) ((a.dot b : ℚ) : ℝ)
    unfold Vector2.angle_signed TAU
    by_cases hneg : atan2 ((a.cross b : ℚ) : ℝ) ((a.dot b : ℚ) : ℝ) < 0
    · simp only [hneg, if_true]
      constructor <;> linarith
    · simp only [hneg, if_false]
      constructor <;> linarith
  · have hpi := Real.pi_pos
    have hd : (Vector2.new 1 0).dot (Vector2.new 0 1) = 0 := by
      norm_num [Vector2.dot, Vector2.new]
    have hc : (Vector2.new 1 0).cross (Vector2.new 0 1) = 1 := by
      norm_num [Vector2.cross, Vector2.new]
    have hat : atan2 (1 : ℝ) (0 : ℝ) = Real.pi / 2 := by
      norm_num [atan2]
    simp only [Vector2.angle_signed, hd, hc]
    push_cast
    rw [hat]
    rw [if_neg (not_lt.mpr (by linarith))]
  · have hpi := Real.pi_pos
    have hd : (Vector2.new 0 1).dot (Vector2.new 1 0) = 0 := by
      norm_num [Vector2.dot, Vector2.new]
    have hc : (Vector2.new 0 1).cross (Vector2.new 1 0) = -1 := by
      norm_num [Vector2.cross, Vector2.new]
    have hat : atan2 (-1 : ℝ) (0 : ℝ) = -(Real.pi / 2) := by
      norm_num [atan2]
    simp only [Vector2.angle_signed, hd, hc]
    push_cast
    rw [hat]
    rw [if_pos (by linarith)]
    unfold TAU
    ring

/-- C8: for each dimension, `angle_safe` returns the NaN sentinel
(modelled `none`) when the product of magnitudes is at or below
`f32::EPSILON`, and otherwise returns exactly `angle(a, b)`. -/
theorem C8_angle_safe_policy :
    (∀ a b : Vector2,
      (a.magnitude * b.magnitude ≤ ((EPSILON : ℚ) : ℝ) → a.angle_safe b = none) ∧
      (¬a.magnitude * b.magnitude ≤ ((EPSILON : ℚ) : ℝ) →
        a.angle_safe b = some (a.angle b))) ∧
    (∀ a b : Vector3,
      (a.magnitude * b.magnitude ≤ ((EPSILON : ℚ) : ℝ) → a.angle_safe b = none) ∧
      (¬a.magnitude * b.magnitude ≤ ((EPSILON : ℚ) : ℝ) →
        a.angle_safe b = some (a.angle b))) ∧
    (∀ a b : Vector4,
      (a.magnitude * b.magnitude ≤ ((EPSILON : ℚ) : ℝ) → a.angle_safe b = none) ∧
      (¬a.magnitude * b.magnitude ≤ ((EPSILON : ℚ) : ℝ) →
        a.angle_safe b = some (a.angle b))) := by
  refine ⟨fun a b => ⟨fun h => ?_, fun h => ?_⟩, fun a b => ⟨fun h => ?_, fun h => ?_⟩,
    fun a b => ⟨fun h => ?_, fun h => ?_⟩⟩
  · simp [Vector2.angle_safe, h]
  · simp [Vector2.angle_safe, h]
  · simp [Vector3.angle_safe, h]
  · simp [Vector3.angle_safe, h]
  · simp [Vector4.angle_safe, h]
  · simp [Vector4.angle_safe, h]

/-- C8 witness: the degenerate branch at the zero vectors and the
regular branch at unit vectors, for each dimension. -/
theorem C8_angle_safe_policy_witness :
    Vector2.angle_safe (Vector2.new 0 0) (Vector2.new 0 0) = none ∧
    Vector2.angle_safe (Vector2.new 1 0) (Vector2.new 1 0) =
      some (Vector2.angle (Vector2.new 1 0) (Vector2.new 1 0)) ∧
    Vector3.angle_safe (Vector3.new 0 0 0) (Vector3.new 0 0 0) = none ∧
    Vector3.angle_safe (Vector3.new 1 0 0) (Vector3.new 1 0 0) =
      some (Vector3.angle (Vector3.new 1 0 0) (Vector3.new 1 0 0)) ∧
    Vector4.angle_safe (Vector4.new 0 0 0 0) (Vector4.new 0 0 0 0) = none ∧
    Vector4.angle_safe (Vector4.new 1 0 0 0) (Vector4.new 1 0 0 0) =
      some (Vector4.angle (Vector4.new 1 0 0 0) (Vector4.new 1 0 0 0)) := by
  refine ⟨(C8_angle_safe_policy.1 _ _).1 ?_, (C8_angle_safe_policy.1 _ _).2 ?_,
    (C8_angle_safe_policy.2.1 _ _).1 ?_, (C8_angle_safe_policy.2.1 _ _).2 ?_,
    (C8_angle_safe_policy.2.2 _ _).1 ?_, (C8_angle_safe_policy.2.2 _ _).2 ?_⟩
  · have hm : (Vector2.new 0 0).magnitude = 0 := by
      simp [Vector2.magnitude, Vector2.dot, Vector2.new]
    rw [hm]
    norm_num [EPSILON]
  · have hm : (Vector2.new 1 0).magnitude = 1 := by
      simp [Vector2.magnitude, Vector2.dot, Vector2.new]
    rw [hm]
    norm_num [EPSILON]
  · have hm : (Vector3.new 0 0 0).magnitude = 0 := by
      simp [Vector3.magnitude, Vector3.dot, Vector3.new]
    rw [hm]
    norm_num [EPSILON]
  · have hm : (Vector3.new 1 0 0).magnitude = 1 := by
      simp [Vector3.magnitude, Vector3.dot, Vector3.new]
    rw [hm]
    norm_num [EPSILON]
  · have hm : (Vector4.new 0 0 0 0).magnitude = 0 := by
      simp [Vector4.magnitude, Vector4.dot, Vector4.new]
    rw [hm]
    norm_num [EPSILON]
  · have hm : (Vector4.new 1 0 0 0).magnitude = 1 := by
      simp [Vector4.magnitude, Vector4.dot, Vector4.new]
    rw [hm]
    norm_num [EPSILON]

/-- C9: code bug.  `Q4()` and `Q4n()` duplicate `Q1()`/`Q1n()` instead
of pointing into the fourth quadrant `(1, -1)`. -/
theorem C9_quadrant_bug :
    Vector2.Q4 = Vector2.Q1 ∧ Vector2.Q4n = Vector2.Q1n ∧
    Vector2.Q4 ≠ Vector2.new 1 (-1) := by
  refine ⟨rfl, rfl, ?_⟩
  norm_num [Vector2.Q4, Vector2.Q1, Vector2.new, Vector2.mk.injEq]

/-- C10: code bug.  `M *= s` on `Matrix2` scales `e[0][1]` twice and
never scales `e[1][0]`, so it does not match the pure `M * s`;
at `M = Matrix2::new(1,2,3,4)`, `s = 2` the in-place result has
`e[0][1] = 12` and `e[1][0] = 2`. -/
theorem C10_mul_assign_bug :
    Matrix2.mul_assign (Matrix2.new 1 2 3 4) 2 ≠ Matrix2.mulScalar (Matrix2.new 1 2 3 4) 2 ∧
    Matrix2.mul_assign (Matrix2.new 1 2 3 4) 2 =
      { e00 := 2, e01 := 12, e10 := 2, e11 := 8 } := by
  constructor
  · norm_num [Matrix2.mul_assign, Matrix2.mulScalar, Matrix2.new, Matrix2.mk.injEq]
  · norm_num [Matrix2.mul_assign, Matrix2.new, Matrix2.mk.injEq]

end Linalg
